import Mathlib

/-!
Shallow embedding of `src/tools/spi_socket_server.py` (TLE92104 SPI HAL
socket-server simulator) and verification of its specified properties.

Bytes and 16-bit frames are modelled as `Nat` with explicit masking
(`&&&`, `>>>`, `<<<`) exactly where the Python source masks.  Python
dicts (`self.registers`, `self.spi_devices`) are modelled as
insertion-ordered association lists with `dict.get` / item-assignment /
`del` semantics.  A `None` payload and an empty `bytes` payload behave
identically in every branch of the source (all checks are via
truthiness), so both are modelled as `[]`.
-/

/-- `d.get k dflt` of a Python dict: value of the first (unique) entry with
key `k`, or the default. -/
def dfind {α : Type} (d : List (Nat × α)) (k : Nat) : Option α :=
  (d.find? (fun p => p.1 == k)).map (fun p => p.2)

/-- `self.registers.get(addr, 0x00)`-style lookup with a default. -/
def dictGet (d : List (Nat × Nat)) (k dflt : Nat) : Nat :=
  (dfind d k).getD dflt

/-- Python dict item assignment `d[k] = v`: update in place when the key
exists (keeping insertion order), else append a new entry. -/
def dictSet {α : Type} (d : List (Nat × α)) (k : Nat) (v : α) : List (Nat × α) :=
  if d.any (fun p => p.1 == k) then
    d.map (fun p => if p.1 == k then (k, v) else p)
  else
    d ++ [(k, v)]

/-- Python `del d[k]` (as used guarded by `k in d`): drop the entry. -/
def dictDel {α : Type} (d : List (Nat × α)) (k : Nat) : List (Nat × α) :=
  d.filter (fun p => p.1 != k)

/-- Register addresses of the simulated TLE92104 (class constants). -/
def REG_WDG : Nat := 0x05

/-- Address of the read-only device-identity register. -/
def REG_DEVID : Nat := 0x08

/-- Fixed device identity stored in `REG_DEVID`. -/
def DEVICE_ID : Nat := 0x5A

/-- State of `TLE92104Simulator`: register dict, watchdog write counter and
the pending (previous-transaction) response pair. -/
structure TLE92104Simulator where
  registers : List (Nat × Nat)
  wdg_count : Nat
  last_response_data : Nat
  last_response_addr : Nat
deriving Repr, DecidableEq

/-- `TLE92104Simulator.__init__`: default register values, zero watchdog
count, zero pending response. -/
def simInit : TLE92104Simulator :=
  { registers :=
      [(0x00, 0x00), (0x01, 0x00), (0x02, 0x00), (0x03, 0x00),
       (0x04, 0x00), (0x05, 0x00), (0x06, 0x00), (0x07, 0x00),
       (0x08, DEVICE_ID)]
    wdg_count := 0
    last_response_data := 0x00
    last_response_addr := 0x00 }

/-- Even-parity loop of `process_spi_frame`: `n` iterations of
`parity ^= temp & 1; temp >>= 1`. -/
def parityLoop : Nat → Nat → Nat → Nat
  | 0, _, parity => parity
  | n + 1, temp, parity => parityLoop n (temp >>> 1) (parity ^^^ (temp &&& 1))

/-- Response-frame construction of `process_spi_frame` (lines 126-134):
`resp_frame = ((addr & 0xF) << 10) | ((data & 0xFF) << 2)` with the even
parity of its 14 payload bits OR-ed into bit 1. -/
def encodeResponse (addr data : Nat) : Nat :=
  let resp_frame := ((addr &&& 0x0F) <<< 10) ||| ((data &&& 0xFF) <<< 2)
  resp_frame ||| (parityLoop 14 ((resp_frame >>> 2) &&& 0x3FFF) 0 <<< 1)

/-- `TLE92104Simulator.process_spi_frame`: decode `cmd`/`addr`/`data`,
update registers and the pending pair, and return the response encoding
the pending pair as it stood before this call. -/
def process_spi_frame (s : TLE92104Simulator) (frame_16bit : Nat) :
    TLE92104Simulator × Nat :=
  let cmd := (frame_16bit >>> 14) &&& 0x03
  let addr := (frame_16bit >>> 10) &&& 0x0F
  let data := (frame_16bit >>> 2) &&& 0xFF
  let s' :=
    if cmd = 0x00 then  -- READ
      { s with
        last_response_data := dictGet s.registers addr 0x00
        last_response_addr := addr }
    else if cmd = 0x01 then  -- WRITE
      let s₁ :=
        if addr ≠ REG_DEVID then
          let s₂ := { s with registers := dictSet s.registers addr data }
          if addr = REG_WDG then { s₂ with wdg_count := s₂.wdg_count + 1 }
          else s₂
        else s  -- WRITE to read-only DEVID register ignored
      { s₁ with
        last_response_data := dictGet s₁.registers addr 0x00
        last_response_addr := addr }
    else  -- unknown command
      { s with last_response_data := 0x00, last_response_addr := 0x00 }
  (s', encodeResponse s.last_response_addr s.last_response_data)

/-- Pair-at-a-time loop of `SpiSocketServer.process_spi_transfer`
(`for i in range(0, len(payload) - 1, 2)`): a trailing odd byte is not
consumed and produces no output here. -/
def transferPairs : TLE92104Simulator → List Nat → TLE92104Simulator × List Nat
  | s, b0 :: b1 :: rest =>
    let tx_frame := (b0 <<< 8) ||| b1
    let r := process_spi_frame s tx_frame
    let rec' := transferPairs r.1 rest
    (rec'.1, ((r.2 >>> 8) &&& 0xFF) :: (r.2 &&& 0xFF) :: rec'.2)
  | s, [_b] => (s, [])
  | s, [] => (s, [])

/-- `SpiSocketServer.process_spi_transfer`: payloads shorter than 2 bytes
pass through verbatim; otherwise frames are processed pairwise and an odd
payload gets a single trailing `0x00` appended to the output. -/
def process_spi_transfer (s : TLE92104Simulator) (payload : List Nat) :
    TLE92104Simulator × List Nat :=
  if payload.length < 2 then (s, payload)
  else
    let r := transferPairs s payload
    if payload.length % 2 ≠ 0 then (r.1, r.2 ++ [0x00]) else r

/-- Per-device SPI configuration stored in `self.spi_devices`. -/
structure DeviceConfig where
  baudrate : Nat
  mode : Nat
  bit_order : Nat
  data_bits : Nat
  initialized : Bool
deriving Repr, DecidableEq

/-- State of `SpiSocketServer` relevant to message processing: the single
simulator instance and the per-device config dict. -/
structure SpiSocketServer where
  tle92104 : TLE92104Simulator
  spi_devices : List (Nat × DeviceConfig)
deriving Repr, DecidableEq

/-- `struct.unpack('<IBBB', payload[:7])`: little-endian u32 baudrate then
three single bytes (mode, bit_order, data_bits). -/
def parseConfig (payload : List Nat) : Nat × Nat × Nat × Nat :=
  (payload.getD 0 0 + payload.getD 1 0 * 0x100 +
     payload.getD 2 0 * 0x10000 + payload.getD 3 0 * 0x1000000,
   payload.getD 4 0, payload.getD 5 0, payload.getD 6 0)

/-- Message-type constants of `SpiMessageType`. -/
def MSG_INIT : Nat := 0x01

/-- DEINIT message type. -/
def MSG_DEINIT : Nat := 0x02

/-- TRANSFER message type. -/
def MSG_TRANSFER : Nat := 0x03

/-- SEND message type. -/
def MSG_SEND : Nat := 0x04

/-- RECEIVE message type. -/
def MSG_RECEIVE : Nat := 0x05

/-- SET_CONFIG message type. -/
def MSG_SET_CONFIG : Nat := 0x06

/-- GET_STATUS message type. -/
def MSG_GET_STATUS : Nat := 0x07

/-- `SpiSocketServer.process_message`: dispatch on message type, returning
the updated server state and the reply payload. -/
def process_message (srv : SpiSocketServer) (msg_type device_id : Nat)
    (payload : List Nat) : SpiSocketServer × List Nat :=
  if msg_type = MSG_INIT then
    let srv₁ :=
      if 7 ≤ payload.length then
        let c := parseConfig payload
        let cfg : DeviceConfig :=
          { baudrate := c.1
            mode := c.2.1
            bit_order := c.2.2.1
            data_bits := c.2.2.2
            initialized := true }
        { srv with spi_devices := dictSet srv.spi_devices device_id cfg }
      else srv
    ({ srv₁ with tle92104 := simInit }, [])
  else if msg_type = MSG_DEINIT then
    ({ srv with spi_devices := dictDel srv.spi_devices device_id }, [])
  else if msg_type = MSG_TRANSFER then
    let r := process_spi_transfer srv.tle92104 payload
    ({ srv with tle92104 := r.1 }, r.2)
  else if msg_type = MSG_SEND then
    if payload ≠ [] then
      let r := process_spi_transfer srv.tle92104 payload
      ({ srv with tle92104 := r.1 }, [])
    else (srv, [])
  else if msg_type = MSG_RECEIVE then
    if 2 ≤ payload.length then
      -- struct.unpack('>H', payload[:2]): big-endian u16
      (srv, List.replicate (payload.getD 0 0 * 0x100 + payload.getD 1 0) 0x00)
    else (srv, [])
  else if msg_type = MSG_SET_CONFIG then
    if 7 ≤ payload.length then
      match dfind srv.spi_devices device_id with
      | some cfg =>
        let c := parseConfig payload
        let cfg' : DeviceConfig :=
          { cfg with
            baudrate := c.1
            mode := c.2.1
            bit_order := c.2.2.1
            data_bits := c.2.2.2 }
        ({ srv with spi_devices := dictSet srv.spi_devices device_id cfg' }, [])
      | none => (srv, [])
    else (srv, [])
  else if msg_type = MSG_GET_STATUS then
    (srv, [0x01, 0x00])
  else
    (srv, [])

/-- State reached from a fresh simulator after processing a list of SPI
command frames in order. -/
def simAfter (fs : List Nat) : TLE92104Simulator :=
  fs.foldl (fun s f => (process_spi_frame s f).1) simInit

/-- Decoding of the `addr` and `data` fields of a 16-bit frame, as
`process_spi_frame` decodes incoming frames. -/
def decodeAddrData (f : Nat) : Nat × Nat :=
  ((f >>> 10) &&& 0x0F, (f >>> 2) &&& 0xFF)

/-- Sum of the `n` bits of `f` starting at bit position `lo` (used to count
set bits in a bit range). -/
def bitsOnesCount : Nat → Nat → Nat → Nat
  | _, _, 0 => 0
  | f, lo, n + 1 => ((f >>> lo) &&& 1) + bitsOnesCount f (lo + 1) n

/-- XOR-reduction of the `n` bits of `f` starting at bit position `lo`. -/
def xorBits : Nat → Nat → Nat → Nat
  | _, _, 0 => 0
  | f, lo, n + 1 => ((f >>> lo) &&& 1) ^^^ xorBits f (lo + 1) n

/-- Well-formedness of a simulator state: the pending response pair fits in
4 + 8 bits and every stored register value fits in a byte. -/
def SimInv (s : TLE92104Simulator) : Prop :=
  s.last_response_addr < 16 ∧ s.last_response_data < 256 ∧
    ∀ p ∈ s.registers, p.2 < 256

theorem find_map_set {α : Type} (d : List (Nat × α)) (k : Nat) (v : α)
    (h : d.any (fun p => p.1 == k) = true) :
    (d.map (fun p => if p.1 == k then (k, v) else p)).find?
      (fun p => p.1 == k) = some (k, v) := by
  induction d with
  | nil => simp at h
  | cons p d ih =>
    by_cases hp : p.1 = k
    · simp [hp]
    · have hpf : (p.1 == k) = false := by simp [hp]
      simp only [List.map_cons, hpf, if_neg hp, List.find?_cons_of_neg,
        Bool.false_eq_true, not_false_iff, hpf]
      rw [List.find?_cons_of_neg _ (by simp [hp])]
      apply ih
      simpa [hpf] using h

theorem dfind_dictSet_self {α : Type} (d : List (Nat × α)) (k : Nat) (v : α) :
    dfind (dictSet d k v) k = some v := by
  unfold dfind dictSet
  by_cases h : d.any (fun p => p.1 == k) = true
  · rw [if_pos h, find_map_set d k v h]
    rfl
  · rw [if_neg h]
    have hnone : d.find? (fun p => p.1 == k) = none := by
      rw [List.find?_eq_none]
      intro x hx hxk
      exact h (List.any_eq_true.mpr ⟨x, hx, hxk⟩)
    simp [hnone]

theorem find_map_ne {α : Type} (d : List (Nat × α)) (k k' : Nat) (v : α)
    (h : k' ≠ k) :
    (d.map (fun p => if p.1 == k then (k, v) else p)).find?
      (fun p => p.1 == k') = d.find? (fun p => p.1 == k') := by
  induction d with
  | nil => rfl
  | cons p d ih =>
    simp only [List.map_cons]
    by_cases hp : p.1 = k
    · have e1 : (if (p.1 == k) = true then (k, v) else p) = (k, v) := by
        simp [hp]
      rw [e1, List.find?_cons_of_neg _ (by simp; omega),
        List.find?_cons_of_neg _ (by simp [hp]; omega), ih]
    · have e1 : (if (p.1 == k) = true then (k, v) else p) = p := by
        simp [hp]
      rw [e1]
      by_cases hp' : p.1 = k'
      · rw [List.find?_cons_of_pos _ (by simp [hp']),
          List.find?_cons_of_pos _ (by simp [hp'])]
      · rw [List.find?_cons_of_neg _ (by simp [hp']),
          List.find?_cons_of_neg _ (by simp [hp']), ih]

theorem dfind_dictSet_ne {α : Type} (d : List (Nat × α)) (k k' : Nat) (v : α)
    (h : k' ≠ k) : dfind (dictSet d k v) k' = dfind d k' := by
  unfold dfind dictSet
  by_cases hany : d.any (fun p => p.1 == k) = true
  · rw [if_pos hany, find_map_ne d k k' v h]
  · rw [if_neg hany]
    congr 1
    rw [List.find?_append]
    have h2 : List.find? (fun p => p.1 == k') [(k, v)] = none := by
      simp
      omega
    rw [h2, Option.or_none]

theorem dictGet_dictSet_self (d : List (Nat × Nat)) (k v dflt : Nat) :
    dictGet (dictSet d k v) k dflt = v := by
  unfold dictGet
  rw [dfind_dictSet_self]
  rfl

theorem dictGet_dictSet_ne (d : List (Nat × Nat)) (k k' v dflt : Nat)
    (h : k' ≠ k) : dictGet (dictSet d k v) k' dflt = dictGet d k' dflt := by
  unfold dictGet
  rw [dfind_dictSet_ne d k k' v h]

theorem mem_dictSet {α : Type} {d : List (Nat × α)} {k : Nat} {v : α}
    {p : Nat × α} (h : p ∈ dictSet d k v) : p ∈ d ∨ p.2 = v := by
  unfold dictSet at h
  by_cases hany : d.any (fun q => q.1 == k) = true
  · rw [if_pos hany] at h
    obtain ⟨q, hq, hqp⟩ := List.mem_map.mp h
    by_cases hqk : q.1 = k
    · right
      have e1 : (if (q.1 == k) = true then (k, v) else q) = (k, v) := by
        simp [hqk]
      rw [e1] at hqp
      rw [← hqp]
    · left
      have e1 : (if (q.1 == k) = true then (k, v) else q) = q := by
        simp [hqk]
      rw [e1] at hqp
      rw [← hqp]
      exact hq
  · rw [if_neg hany] at h
    rcases List.mem_append.mp h with h' | h'
    · exact Or.inl h'
    · right
      simp only [List.mem_singleton] at h'
      rw [h']

theorem dictGet_lt (d : List (Nat × Nat)) (k m : Nat) (hm : 0 < m)
    (h : ∀ p ∈ d, p.2 < m) : dictGet d k 0 < m := by
  unfold dictGet dfind
  cases hf : d.find? (fun p => p.1 == k) with
  | none => simpa using hm
  | some p =>
    have := h p (List.mem_of_find?_eq_some hf)
    simpa using this

theorem simInv_init : SimInv simInit := by
  refine ⟨by decide, by decide, ?_⟩
  decide

theorem process_spi_frame_fst_cases (s : TLE92104Simulator) (f : Nat) :
    ((process_spi_frame s f).1.registers = s.registers ∨
      (process_spi_frame s f).1.registers =
        dictSet s.registers ((f >>> 10) &&& 0x0F) ((f >>> 2) &&& 0xFF)) ∧
    ((process_spi_frame s f).1.last_response_addr = 0 ∨
      (process_spi_frame s f).1.last_response_addr = (f >>> 10) &&& 0x0F) ∧
    ((process_spi_frame s f).1.last_response_data = 0 ∨
      (process_spi_frame s f).1.last_response_data =
        dictGet (process_spi_frame s f).1.registers ((f >>> 10) &&& 0x0F) 0) := by
  unfold process_spi_frame
  dsimp only
  split_ifs <;> simp

theorem simInv_step (s : TLE92104Simulator) (f : Nat) (h : SimInv s) :
    SimInv (process_spi_frame s f).1 := by
  obtain ⟨-, -, h3⟩ := h
  have haddr : (f >>> 10) &&& 0x0F < 16 :=
    Nat.lt_succ_of_le Nat.and_le_right
  have hdata : (f >>> 2) &&& 0xFF < 256 :=
    Nat.lt_succ_of_le Nat.and_le_right
  obtain ⟨hr, ha, hd⟩ := process_spi_frame_fst_cases s f
  have hreg : ∀ p ∈ (process_spi_frame s f).1.registers, p.2 < 256 := by
    rcases hr with hr | hr <;> rw [hr]
    · exact h3
    · intro p hp
      rcases mem_dictSet hp with h' | h'
      · exact h3 p h'
      · omega
  refine ⟨?_, ?_, hreg⟩
  · rcases ha with ha | ha <;> rw [ha] <;> omega
  · rcases hd with hd | hd <;> rw [hd]
    · omega
    · exact dictGet_lt _ _ _ (by omega) hreg

theorem simInv_simAfter (fs : List Nat) : SimInv (simAfter fs) := by
  unfold simAfter
  have h : ∀ (l : List Nat) (s : TLE92104Simulator), SimInv s →
      SimInv (l.foldl (fun s f => (process_spi_frame s f).1) s) := by
    intro l
    induction l with
    | nil => intro s hs; exact hs
    | cons f l ih =>
      intro s hs
      exact ih _ (simInv_step s f hs)
  exact h fs simInit simInv_init

set_option maxRecDepth 100000 in
theorem encDec : ∀ a < 16, ∀ d < 256,
    decodeAddrData (encodeResponse a d) = (a, d) := by decide

set_option maxRecDepth 100000 in
set_option maxHeartbeats 2000000 in
theorem parityProps : ∀ a < 16, ∀ d < 256,
    bitsOnesCount (encodeResponse a d) 1 15 % 2 = 0 ∧
    (encodeResponse a d >>> 1) &&& 1 = xorBits (encodeResponse a d) 2 14 ∧
    (encodeResponse a d >>> 14) &&& 3 = 0 ∧
    encodeResponse a d &&& 1 = 0 := by decide

theorem and_fifteen_eq_mod (x : Nat) : x &&& 15 = x % 16 := by
  have h := Nat.and_pow_two_sub_one_eq_mod x 4
  norm_num at h
  exact h

theorem and_two_five_five_eq_mod (x : Nat) : x &&& 255 = x % 256 := by
  have h := Nat.and_pow_two_sub_one_eq_mod x 8
  norm_num at h
  exact h

theorem encodeResponse_mod (a d : Nat) :
    encodeResponse a d = encodeResponse (a % 16) (d % 256) := by
  unfold encodeResponse
  have h1 : a &&& 0x0F = (a % 16) &&& 0x0F := by
    rw [and_fifteen_eq_mod, and_fifteen_eq_mod]
    omega
  have h2 : d &&& 0xFF = (d % 256) &&& 0xFF := by
    rw [and_two_five_five_eq_mod, and_two_five_five_eq_mod]
    omega
  rw [h1, h2]

theorem process_spi_frame_snd (s : TLE92104Simulator) (f : Nat) :
    (process_spi_frame s f).2 =
      encodeResponse s.last_response_addr s.last_response_data := rfl

theorem simAfter_append (fs : List Nat) (f : Nat) :
    simAfter (fs ++ [f]) = (process_spi_frame (simAfter fs) f).1 := by
  unfold simAfter
  rw [List.foldl_append]
  rfl

/-- C1: starting from a fresh simulator, the response to the very first
command frame always decodes to `(addr, data) = (0, 0)`, and for any later
frame `g` preceded by history `fs ++ [f]`, the `(addr, data)` decoded from
the response to `g` are exactly the pending pair that the immediately
preceding frame `f` left behind as its own immediate result. -/
theorem pipeline_delay_invariant (fs : List Nat) (f g : Nat) :
    decodeAddrData (process_spi_frame simInit f).2 = (0, 0) ∧
    decodeAddrData (process_spi_frame (simAfter (fs ++ [f])) g).2 =
      ((simAfter (fs ++ [f])).last_response_addr,
       (simAfter (fs ++ [f])).last_response_data) := by
  constructor
  · have h : (process_spi_frame simInit f).2 = encodeResponse 0 0 := rfl
    rw [h]
    decide
  · obtain ⟨ha, hd, -⟩ := simInv_simAfter (fs ++ [f])
    rw [process_spi_frame_snd]
    exact encDec _ ha _ hd

/-- C5: every response frame produced by `process_spi_frame` (via the
`encodeResponse` construction) has an even number of set bits among bits
1-15, its parity bit (bit 1) equals the XOR-reduction of bits 2-15, and
its cmd field (bits 15-14) and reserved bit (bit 0) are zero. -/
theorem response_parity_invariant (s : TLE92104Simulator) (f : Nat) :
    bitsOnesCount (process_spi_frame s f).2 1 15 % 2 = 0 ∧
    ((process_spi_frame s f).2 >>> 1) &&& 1 =
      xorBits (process_spi_frame s f).2 2 14 ∧
    ((process_spi_frame s f).2 >>> 14) &&& 3 = 0 ∧
    (process_spi_frame s f).2 &&& 1 = 0 := by
  rw [process_spi_frame_snd, encodeResponse_mod]
  exact parityProps _ (Nat.mod_lt _ (by norm_num)) _ (Nat.mod_lt _ (by norm_num))

theorem process_registers_cases (s : TLE92104Simulator) (f : Nat) :
    (process_spi_frame s f).1.registers = s.registers ∨
    ((process_spi_frame s f).1.registers =
        dictSet s.registers ((f >>> 10) &&& 0x0F) ((f >>> 2) &&& 0xFF) ∧
      (f >>> 14) &&& 0x03 = 1 ∧ (f >>> 10) &&& 0x0F ≠ REG_DEVID) := by
  unfold process_spi_frame
  dsimp only
  split_ifs <;> simp_all

theorem process_read_lrd (s : TLE92104Simulator) (f : Nat)
    (hc : (f >>> 14) &&& 0x03 = 0) :
    (process_spi_frame s f).1.last_response_data =
      dictGet s.registers ((f >>> 10) &&& 0x0F) 0 := by
  unfold process_spi_frame
  dsimp only
  rw [if_pos hc]

theorem process_write_state (s : TLE92104Simulator) (f : Nat)
    (hc : (f >>> 14) &&& 0x03 = 1) (h8 : (f >>> 10) &&& 0x0F ≠ REG_DEVID) :
    (process_spi_frame s f).1.registers =
      dictSet s.registers ((f >>> 10) &&& 0x0F) ((f >>> 2) &&& 0xFF) ∧
    (process_spi_frame s f).1.last_response_data =
      dictGet (dictSet s.registers ((f >>> 10) &&& 0x0F) ((f >>> 2) &&& 0xFF))
        ((f >>> 10) &&& 0x0F) 0 := by
  have hc0 : ¬((f >>> 14) &&& 0x03 = 0) := by omega
  unfold process_spi_frame
  dsimp only
  rw [if_neg hc0, if_pos hc, if_pos h8]
  by_cases h5 : (f >>> 10) &&& 0x0F = REG_WDG <;> simp [h5]

theorem devid_step (s : TLE92104Simulator) (f : Nat)
    (h : dictGet s.registers REG_DEVID 0 = DEVICE_ID) :
    dictGet (process_spi_frame s f).1.registers REG_DEVID 0 = DEVICE_ID := by
  rcases process_registers_cases s f with hr | ⟨hr, -, hne⟩
  · rw [hr]
    exact h
  · rw [hr, dictGet_dictSet_ne _ _ _ _ _ (Ne.symm hne)]
    exact h

theorem devid_simAfter (fs : List Nat) :
    dictGet (simAfter fs).registers REG_DEVID 0 = DEVICE_ID := by
  unfold simAfter
  have h : ∀ (l : List Nat) (s : TLE92104Simulator),
      dictGet s.registers REG_DEVID 0 = DEVICE_ID →
      dictGet ((l.foldl (fun s f => (process_spi_frame s f).1) s).registers)
        REG_DEVID 0 = DEVICE_ID := by
    intro l
    induction l with
    | nil => intro s hs; exact hs
    | cons f l ih =>
      intro s hs
      exact ih _ (devid_step s f hs)
  exact h fs simInit (by decide)

/-- C4: after any sequence of command frames (in particular any sequence of
WRITEs, including WRITEs targeting address 0x08), the register at the DEVID
address still holds the fixed identity constant 0x5A, and processing a READ
frame addressed to 0x08 loads exactly that value as the read result (the
pending data that the next response will carry). -/
theorem devid_invariant (fs : List Nat) :
    dictGet (simAfter fs).registers REG_DEVID 0 = DEVICE_ID ∧
    ∀ f, (f >>> 14) &&& 0x03 = 0 → (f >>> 10) &&& 0x0F = REG_DEVID →
      (process_spi_frame (simAfter fs) f).1.last_response_data = DEVICE_ID := by
  refine ⟨devid_simAfter fs, ?_⟩
  intro f hc ha
  rw [process_read_lrd _ _ hc, ha]
  exact devid_simAfter fs

/-- Witness for C4: a WRITE of 0xFF to address 0x08 (frame 0x63FC) leaves
the DEVID register at 0x5A, and a READ of 0x08 (frame 0x2000) then reads
0x5A. -/
theorem devid_invariant_witness :
    dictGet (simAfter [0x63FC]).registers REG_DEVID 0 = DEVICE_ID ∧
    (process_spi_frame (simAfter [0x63FC]) 0x2000).1.last_response_data =
      DEVICE_ID :=
  ⟨(devid_invariant [0x63FC]).1,
   (devid_invariant [0x63FC]).2 0x2000 (by decide) (by decide)⟩

theorem simInit_unmapped (a : Nat) (h : 9 ≤ a) :
    dictGet simInit.registers a 0 = 0 := by
  have hf : simInit.registers.find? (fun p => p.1 == a) = none := by
    rw [List.find?_eq_none]
    intro x hx
    simp only [simInit, DEVICE_ID, List.mem_cons, List.not_mem_nil,
      or_false] at hx
    rcases hx with h' | h' | h' | h' | h' | h' | h' | h' | h' <;>
      subst h' <;> simp only [beq_iff_eq] <;> omega
  simp [dictGet, dfind, hf]

theorem noWrite_step (s : TLE92104Simulator) (f a : Nat)
    (hnw : ¬((f >>> 14) &&& 0x03 = 1 ∧ (f >>> 10) &&& 0x0F = a))
    (h : dictGet s.registers a 0 = 0) :
    dictGet (process_spi_frame s f).1.registers a 0 = 0 := by
  rcases process_registers_cases s f with hr | ⟨hr, hc, -⟩
  · rw [hr]
    exact h
  · rw [hr, dictGet_dictSet_ne]
    · exact h
    · intro he
      exact hnw ⟨hc, he.symm⟩

theorem noWrite_simAfter (a : Nat) (fs : List Nat) (h9 : 9 ≤ a)
    (hfs : ∀ g ∈ fs, ¬((g >>> 14) &&& 0x03 = 1 ∧ (g >>> 10) &&& 0x0F = a)) :
    dictGet (simAfter fs).registers a 0 = 0 := by
  unfold simAfter
  have h : ∀ (l : List Nat) (s : TLE92104Simulator),
      (∀ g ∈ l, ¬((g >>> 14) &&& 0x03 = 1 ∧ (g >>> 10) &&& 0x0F = a)) →
      dictGet s.registers a 0 = 0 →
      dictGet ((l.foldl (fun s f => (process_spi_frame s f).1) s).registers)
        a 0 = 0 := by
    intro l
    induction l with
    | nil => intro s _ hs; exact hs
    | cons g l ih =>
      intro s hl hs
      exact ih _ (fun x hx => hl x (List.mem_cons_of_mem g hx))
        (noWrite_step s g a (hl g (List.mem_cons_self g l)) hs)
  exact h fs simInit hfs (simInit_unmapped a h9)

/-- Counterexample to C3: a WRITE of 0x42 to the unmapped address 0x09
(frame 0x6508) is stored in the register dict, and a subsequent READ of
0x09 (frame 0x2400) reads back 0x42, not 0. -/
theorem unmapped_unstored_cex :
    dictGet (process_spi_frame simInit 0x6508).1.registers 0x09 0 = 0x42 ∧
    (process_spi_frame (process_spi_frame simInit 0x6508).1
      0x2400).1.last_response_data = 0x42 ∧
    ¬((process_spi_frame (process_spi_frame simInit 0x6508).1
      0x2400).1.last_response_data = 0) := by decide

/-- C3 as amended: a READ of an address in 0x09-0x0F returns 0 only as long
as no prior WRITE frame targeted that address; a WRITE to such an address
is stored like any other non-DEVID register, and the stored value is both
kept in the register dict and read back as the write's immediate result. -/
theorem unmapped_reads_amended (a f g : Nat) (fs : List Nat)
    (ha9 : 9 ≤ a) (ha15 : a ≤ 15)
    (hfs : ∀ x ∈ fs, ¬((x >>> 14) &&& 0x03 = 1 ∧ (x >>> 10) &&& 0x0F = a))
    (hfc : (f >>> 14) &&& 0x03 = 0) (hfa : (f >>> 10) &&& 0x0F = a)
    (hgc : (g >>> 14) &&& 0x03 = 1) (hga : (g >>> 10) &&& 0x0F = a) :
    (process_spi_frame (simAfter fs) f).1.last_response_data = 0 ∧
    dictGet (process_spi_frame (simAfter fs) g).1.registers a 0 =
      (g >>> 2) &&& 0xFF ∧
    (process_spi_frame (simAfter fs) g).1.last_response_data =
      (g >>> 2) &&& 0xFF := by
  have hz : dictGet (simAfter fs).registers a 0 = 0 :=
    noWrite_simAfter a fs ha9 hfs
  have h8 : (g >>> 10) &&& 0x0F ≠ REG_DEVID := by
    rw [hga]
    unfold REG_DEVID
    omega
  obtain ⟨hw1, hw2⟩ := process_write_state (simAfter fs) g hgc h8
  refine ⟨?_, ?_, ?_⟩
  · rw [process_read_lrd _ _ hfc, hfa]
    exact hz
  · rw [hw1, hga, dictGet_dictSet_self]
  · rw [hw2, hga, dictGet_dictSet_self]

/-- Witness for the amended C3 at address 0x09: on a fresh simulator a READ
of 0x09 yields 0, and a WRITE of 0x42 to 0x09 stores and reads back 0x42. -/
theorem unmapped_reads_amended_witness :
    (process_spi_frame (simAfter []) 0x2400).1.last_response_data = 0 ∧
    dictGet (process_spi_frame (simAfter []) 0x6508).1.registers 9 0 =
      (0x6508 >>> 2) &&& 0xFF ∧
    (process_spi_frame (simAfter []) 0x6508).1.last_response_data =
      (0x6508 >>> 2) &&& 0xFF :=
  unmapped_reads_amended 9 0x2400 0x6508 [] (by decide) (by decide)
    (by decide) (by decide) (by decide) (by decide) (by decide)

/-- Counterexample to C2: from a fresh simulator, TRANSFER `[0x08, 0x00]`
(frame 0x0800, which decodes to a READ of address 0x2, not of the identity
register, since addr 0x8 at bits 13-10 is 0x2000) yields `[0x00, 0x00]`,
but the second TRANSFER `[0x00, 0x00]` then yields `[0x08, 0x02]`, not
`[0x21, 0x6A]`. -/
theorem scenario1_cex :
    (process_spi_transfer simInit [0x08, 0x00]).2 = [0x00, 0x00] ∧
    (process_spi_transfer (process_spi_transfer simInit [0x08, 0x00]).1
      [0x00, 0x00]).2 = [0x08, 0x02] ∧
    ¬((process_spi_transfer (process_spi_transfer simInit [0x08, 0x00]).1
      [0x00, 0x00]).2 = [0x21, 0x6A]) := by decide

/-- C2 as amended: the 2-byte payload that encodes a READ of the identity
register at addr 0x8 is `[0x20, 0x00]` (addr 0x8 at bits 13-10 gives
0x2000): from a fresh simulator that TRANSFER yields `[0x00, 0x00]`, and a
second TRANSFER `[0x00, 0x00]` then yields `[0x21, 0x6A]` — the identity
value 0x5A surfacing one step late with parity bit 1 set. -/
theorem scenario1_amended :
    (process_spi_transfer simInit [0x20, 0x00]).2 = [0x00, 0x00] ∧
    (process_spi_transfer (process_spi_transfer simInit [0x20, 0x00]).1
      [0x00, 0x00]).2 = [0x21, 0x6A] := by decide

theorem transferPairs_length (s : TLE92104Simulator) (p : List Nat) :
    ((transferPairs s p).2).length = 2 * (p.length / 2) := by
  induction s, p using transferPairs.induct with
  | case1 s b0 b1 rest tx r ih =>
    have hr : r = process_spi_frame s tx := rfl
    rw [hr] at ih
    simp only [transferPairs, List.length_cons]
    rw [ih]
    omega
  | case2 s b => simp [transferPairs]
  | case3 s => simp [transferPairs]

/-- Counterexample to C6: a 1-byte TRANSFER payload passes through
verbatim, so for payload `[0xAA]` the final (only) output byte is 0xAA,
not 0x00. -/
theorem transfer_length_cex :
    (process_spi_transfer simInit [0xAA]).2 = [0xAA] ∧
    ¬((process_spi_transfer simInit [0xAA]).2.getLast? = some 0x00) := by
  decide

/-- C6 as amended: the transfer output always has the same length as the
input payload; every odd-length input of length at least 3 produces an
output whose final byte is 0x00; payloads shorter than 2 bytes (including
the odd 1-byte payload) pass through verbatim. -/
theorem transfer_length_amended (s : TLE92104Simulator) (p : List Nat) :
    ((process_spi_transfer s p).2).length = p.length ∧
    (3 ≤ p.length → p.length % 2 = 1 →
      (process_spi_transfer s p).2.getLast? = some 0x00) ∧
    (p.length < 2 → (process_spi_transfer s p).2 = p) := by
  unfold process_spi_transfer
  by_cases hlen : p.length < 2
  · rw [if_pos hlen]
    exact ⟨rfl, fun h3 _ => absurd h3 (by omega), fun _ => rfl⟩
  · rw [if_neg hlen]
    by_cases hodd : p.length % 2 ≠ 0
    · rw [if_pos hodd]
      refine ⟨?_, ?_, ?_⟩
      · rw [List.length_append, transferPairs_length]
        simp only [List.length_singleton]
        omega
      · intro _ _
        rw [List.getLast?_concat]
      · intro h
        exact absurd h hlen
    · rw [if_neg hodd]
      refine ⟨?_, ?_, ?_⟩
      · rw [transferPairs_length]
        omega
      · intro _ h1
        omega
      · intro h
        exact absurd h hlen

/-- Witness for the amended C6: the 3-byte payload `[0x00, 0x00, 0xAA]` on
a fresh simulator yields a 3-byte output ending in 0x00. -/
theorem transfer_length_amended_witness :
    ((process_spi_transfer simInit [0x00, 0x00, 0xAA]).2).length = 3 ∧
    (process_spi_transfer simInit [0x00, 0x00, 0xAA]).2.getLast? =
      some 0x00 :=
  ⟨(transfer_length_amended simInit [0x00, 0x00, 0xAA]).1,
   (transfer_length_amended simInit [0x00, 0x00, 0xAA]).2.1 (by decide)
     (by decide)⟩

theorem simInit_default (a : Nat) (h : a ≠ REG_DEVID) :
    dictGet simInit.registers a 0 = 0 := by
  by_cases h9 : 9 ≤ a
  · exact simInit_unmapped a h9
  · have h8 : a < 9 := by omega
    interval_cases a <;> first | decide | (exact absurd rfl h)

/-- C7: an INIT message always replaces the server's simulator with a
freshly constructed instance, whatever the payload length: the pending
response pair and the watchdog counter are reset to zero and every
non-identity register of the fresh instance reads back as 0x00. -/
theorem init_resets (srv : SpiSocketServer) (device_id : Nat)
    (payload : List Nat) :
    (process_message srv MSG_INIT device_id payload).1.tle92104 = simInit ∧
    simInit.last_response_addr = 0 ∧
    simInit.last_response_data = 0 ∧
    simInit.wdg_count = 0 ∧
    ∀ a, a ≠ REG_DEVID → dictGet simInit.registers a 0 = 0x00 :=
  ⟨rfl, rfl, rfl, rfl, fun a ha => simInit_default a ha⟩

/-- Witness for C7: INIT on a concrete server state resets the simulator,
and register 0x05 of the fresh simulator reads 0x00. -/
theorem init_resets_witness :
    (process_message ⟨simInit, []⟩ MSG_INIT 0 []).1.tle92104 = simInit ∧
    dictGet simInit.registers 5 0 = 0x00 :=
  ⟨(init_resets ⟨simInit, []⟩ 0 []).1,
   (init_resets ⟨simInit, []⟩ 0 []).2.2.2.2 5 (by decide)⟩

/-- C8: incoming command-frame parity is never validated: two frames that
agree on all bits above position 1 (bits 15-2) but may differ in the
parity bit (bit 1) and/or reserved bit (bit 0) produce the same response
frame and the same successor state. -/
theorem incoming_parity_ignored (s : TLE92104Simulator) (f1 f2 : Nat)
    (h : f1 >>> 2 = f2 >>> 2) :
    process_spi_frame s f1 = process_spi_frame s f2 := by
  have e1 := Nat.shiftRight_add f1 2 12
  have e2 := Nat.shiftRight_add f2 2 12
  have e3 := Nat.shiftRight_add f1 2 8
  have e4 := Nat.shiftRight_add f2 2 8
  norm_num at e1 e2 e3 e4
  have h14 : f1 >>> 14 = f2 >>> 14 := by rw [e1, e2, h]
  have h10 : f1 >>> 10 = f2 >>> 10 := by rw [e3, e4, h]
  simp only [process_spi_frame, h, h14, h10]

/-- Witness for C8: frames 0x2000 and 0x2003 differ only in the parity and
reserved bits and are processed identically from a fresh simulator. -/
theorem incoming_parity_ignored_witness :
    process_spi_frame simInit 0x2000 = process_spi_frame simInit 0x2003 :=
  incoming_parity_ignored simInit 0x2000 0x2003 (by decide)

/-- C9: a RECEIVE message whose payload has length at least 2 replies with
exactly `requestedLength` zero bytes, where `requestedLength` is the
big-endian u16 formed by the first two payload bytes, and leaves the whole
server state (simulator and device configs) untouched. -/
theorem receive_zero_fill (srv : SpiSocketServer) (device_id : Nat)
    (payload : List Nat) (h : 2 ≤ payload.length) :
    process_message srv MSG_RECEIVE device_id payload =
      (srv, List.replicate (payload.getD 0 0 * 0x100 + payload.getD 1 0)
        0x00) := by
  unfold process_message
  rw [if_neg (by decide), if_neg (by decide), if_neg (by decide),
    if_neg (by decide), if_pos rfl, if_pos h]

/-- Witness for C9: RECEIVE with payload `[0x00, 0x05]` replies with five
zero bytes and changes nothing. -/
theorem receive_zero_fill_witness :
    process_message ⟨simInit, []⟩ MSG_RECEIVE 7 [0x00, 0x05] =
      (⟨simInit, []⟩, List.replicate 5 0x00) :=
  receive_zero_fill ⟨simInit, []⟩ 7 [0x00, 0x05] (by decide)

/-- C10: every message type other than INIT, TRANSFER and SEND — i.e.
DEINIT, RECEIVE, SET_CONFIG, GET_STATUS and any unknown type — leaves the
simulator component of the server state (register file, pending response
pair and watchdog counter) exactly unchanged. -/
theorem passive_messages (srv : SpiSocketServer) (msg_type device_id : Nat)
    (payload : List Nat) (h1 : msg_type ≠ MSG_INIT)
    (h3 : msg_type ≠ MSG_TRANSFER) (h4 : msg_type ≠ MSG_SEND) :
    (process_message srv msg_type device_id payload).1.tle92104 =
      srv.tle92104 := by
  unfold process_message
  rw [if_neg h1]
  by_cases h2 : msg_type = MSG_DEINIT
  · rw [if_pos h2]
  · rw [if_neg h2, if_neg h3, if_neg h4]
    by_cases h5 : msg_type = MSG_RECEIVE
    · rw [if_pos h5]
      by_cases hl : 2 ≤ payload.length
      · rw [if_pos hl]
      · rw [if_neg hl]
    · rw [if_neg h5]
      by_cases h6 : msg_type = MSG_SET_CONFIG
      · rw [if_pos h6]
        by_cases hl : 7 ≤ payload.length
        · rw [if_pos hl]
          cases hd : dfind srv.spi_devices device_id with
          | some cfg => rfl
          | none => rfl
        · rw [if_neg hl]
      · rw [if_neg h6]
        by_cases h7 : msg_type = MSG_GET_STATUS
        · rw [if_pos h7]
        · rw [if_neg h7]

/-- Witness for C10: GET_STATUS on a concrete server state leaves the
simulator unchanged. -/
theorem passive_messages_witness :
    (process_message ⟨simInit, []⟩ MSG_GET_STATUS 0 []).1.tle92104 =
      SpiSocketServer.tle92104 ⟨simInit, []⟩ :=
  passive_messages ⟨simInit, []⟩ MSG_GET_STATUS 0 [] (by decide) (by decide)
    (by decide)
